import Mathlib

/-!
Verification of the ownership-scoped buyer-lead intake subsystem: a shallow
embedding of the request handlers under `src/app/api/buyers` (list, create,
single-record get/update/delete, CSV import, CSV export), the zod validation
schemas in `src/lib/validations.ts`, and the drizzle-backed record store of
`src/db/schema.ts`. Stateful handlers are modelled as explicit state passing
over a `Store` value; the database is modelled as in-memory lists; timestamps
are an abstract clock (`Nat`) passed to each handler; generated record ids are
modelled by a fresh-id counter. JavaScript string primitives used by the code
(split, trim, parseInt, template joins) are modelled by structurally recursive
functions over `List Char` so that every definition evaluates inside the
kernel.
-/

set_option maxRecDepth 100000

namespace BuyerIntake

/-! ## JavaScript string primitives -/

/-- Model of `String.prototype.split(sep)` for a one-character separator:
splitting the empty string yields one empty group, matching JS. -/
def chSplit (sep : Char) : List Char → List (List Char)
  | [] => [[]]
  | c :: cs =>
    let r := chSplit sep cs
    if c = sep then [] :: r
    else
      match r with
      | [] => [[c]]
      | g :: gs => (c :: g) :: gs

/-- Model of `s.split(sep)` on strings. -/
def splitStr (sep : Char) (s : String) : List String :=
  (chSplit sep s.data).map String.mk

/-- Characters treated as whitespace by the model of `String.prototype.trim`
(the source data is ASCII). -/
def trimChars (l : List Char) : List Char :=
  ((l.dropWhile Char.isWhitespace).reverse.dropWhile Char.isWhitespace).reverse

/-- Model of `String.prototype.trim()`. -/
def jsTrim (s : String) : String :=
  String.mk (trimChars s.data)

/-- Model of `.replace(/^"|"$/g, '')` as used on CSV cells: removes one
leading and one trailing double quote when present. -/
def stripOuterQuotes (s : String) : String :=
  let l₁ :=
    match s.data with
    | '"' :: r => r
    | l => l
  let l₂ :=
    match l₁.getLast? with
    | some '"' => l₁.dropLast
    | _ => l₁
  String.mk l₂

/-- Model of `String.prototype.toLowerCase()` (ASCII data). -/
def lowerStr (s : String) : String :=
  String.mk (s.data.map Char.toLower)

/-- Does `pat` occur as a contiguous sublist of the second argument?
Used to model SQL `ilike '%pat%'`. -/
def hasSubstr (pat : List Char) : List Char → Bool
  | [] => pat.isEmpty
  | c :: t => List.isPrefixOf pat (c :: t) || hasSubstr pat t

/-- Model of drizzle `ilike(column, '%pat%')`: case-insensitive substring
match. -/
def ilikeContains (field pat : String) : Bool :=
  hasSubstr (pat.data.map Char.toLower) (field.data.map Char.toLower)

/-- A JavaScript number that is either an actual integer or `NaN`
(the possible outcomes of `parseInt` on the CSV columns). -/
inductive JsNum where
  | nan : JsNum
  | val (n : Int) : JsNum
deriving DecidableEq, Repr

/-- Digit run to a natural number, most significant first. -/
def digitsToNat : List Char → Nat → Nat
  | [], acc => acc
  | c :: t, acc => digitsToNat t (acc * 10 + (c.toNat - 48))

/-- Model of `parseInt(s)` in base 10: leading whitespace skipped, optional
sign, then a maximal digit prefix; `NaN` when no digits are found.
(Hexadecimal prefixes are not modelled; every call site in this development
passes decimal digit strings.) -/
def jsParseInt (s : String) : JsNum :=
  let l := s.data.dropWhile Char.isWhitespace
  let p : Bool × List Char :=
    match l with
    | '-' :: r => (true, r)
    | '+' :: r => (false, r)
    | _ => (false, l)
  let ds := p.2.takeWhile Char.isDigit
  if ds.isEmpty then .nan
  else .val (if p.1 then -(digitsToNat ds 0 : Int) else (digitsToNat ds 0 : Int))

/-- Model of `Array.prototype.join(sep)` over strings. -/
def joinSep (sep : String) : List String → String
  | [] => ""
  | [x] => x
  | x :: y :: t => x ++ sep ++ joinSep sep (y :: t)

/-! ## Data model (`src/db/schema.ts`) -/

/-- An authenticated principal as produced by the `getUserFromRequest`
helpers: `{id, email, role}`, all strings (the role is a raw string coming
either from the `x-user-role` header or from the users table). -/
structure Principal where
  id : String
  email : String
  role : String
deriving DecidableEq, Repr

/-- A row of the `users` table (the fields the handlers read). -/
structure User where
  id : String
  email : String
  role : String
deriving DecidableEq, Repr

/-- A row of the `buyers` table. Timestamps are abstract clock values. -/
structure Buyer where
  id : String
  fullName : String
  email : Option String
  phone : String
  city : String
  propertyType : String
  bhk : Option String
  purpose : String
  budgetMin : Option Int
  budgetMax : Option Int
  timeline : String
  source : String
  status : String
  notes : Option String
  tags : List String
  ownerId : Option String
  createdAt : Nat
  updatedAt : Nat
deriving DecidableEq, Repr

/-- The request headers the buyer endpoints read. -/
structure Headers where
  xUserEmail : Option String
  xUserRole : Option String
  xUserId : Option String
deriving DecidableEq, Repr

/-! ## Validation schemas (`src/lib/validations.ts`) -/

def cityOptions : List String :=
  ["Chandigarh", "Mohali", "Zirakpur", "Panchkula", "Other"]

def propertyTypeOptions : List String :=
  ["Apartment", "Villa", "Plot", "Office", "Retail"]

def bhkOptions : List String := ["1", "2", "3", "4", "Studio"]

def purposeOptions : List String := ["Buy", "Rent"]

def timelineOptions : List String := ["0-3m", "3-6m", ">6m", "Exploring"]

def sourceOptions : List String := ["Website", "Referral", "Walk-in", "Call", "Other"]

def statusOptions : List String :=
  ["New", "Qualified", "Contacted", "Visited", "Negotiation", "Converted", "Dropped"]

/-- One zod issue: the path (every issue of these schemas has a single path
segment, so it is kept as the already-joined string) and the message. -/
structure Issue where
  path : String
  message : String
deriving DecidableEq, Repr

/-- The cleaned create payload handed to `createBuyerSchema.parse` by the
create route and the import route (the `cleanedData` / `buyerData` object):
absent optional fields are `none`, budgets are raw JavaScript numbers. -/
structure CreateInput where
  fullName : String
  email : Option String
  phone : String
  city : String
  propertyType : String
  bhk : Option String
  purpose : String
  budgetMin : Option JsNum
  budgetMax : Option JsNum
  timeline : String
  source : String
  notes : Option String
  tags : List String
deriving DecidableEq, Repr

/-- The cleaned update payload handed to `updateBuyerSchema.parse`
(create fields plus `status`). -/
structure UpdateInput where
  fullName : String
  email : Option String
  phone : String
  city : String
  propertyType : String
  bhk : Option String
  purpose : String
  budgetMin : Option JsNum
  budgetMax : Option JsNum
  timeline : String
  source : String
  status : String
  notes : Option String
  tags : List String
deriving DecidableEq, Repr

/-- The output of a successful `createBuyerSchema.parse`: empty-string
optionals transformed to `none`, budgets validated as positive integers. -/
structure ValidatedCreate where
  fullName : String
  email : Option String
  phone : String
  city : String
  propertyType : String
  bhk : Option String
  purpose : String
  budgetMin : Option Int
  budgetMax : Option Int
  timeline : String
  source : String
  notes : Option String
  tags : List String
deriving DecidableEq, Repr

/-- The output of a successful `updateBuyerSchema.parse`. -/
structure ValidatedUpdate where
  fullName : String
  email : Option String
  phone : String
  city : String
  propertyType : String
  bhk : Option String
  purpose : String
  budgetMin : Option Int
  budgetMax : Option Int
  timeline : String
  source : String
  status : String
  notes : Option String
  tags : List String
deriving DecidableEq, Repr

/-- Characters the zod email regex allows in the local part before its final
character (letters, digits, underscore, apostrophe, plus, minus, dot). -/
def isEmailLocalChar (c : Char) : Bool :=
  c.isAlpha || c.isDigit || c = '_' || c = Char.ofNat 39 || c = '+' || c = '-' || c = '.'

/-- Characters allowed as the final character of the local part. -/
def isEmailLocalLast (c : Char) : Bool :=
  c.isAlpha || c.isDigit || c = '_' || c = '+' || c = '-'

/-- Two consecutive dots anywhere in the character list. -/
def hasDoubleDot : List Char → Bool
  | '.' :: '.' :: _ => true
  | _ :: t => hasDoubleDot t
  | [] => false

/-- Model of the zod `.email()` format check (the v3 email regex): local part
from the allowed character class not starting with a dot, no double dots
anywhere, exactly one at sign, domain of one or more alphanumeric-hyphen
labels followed by an alphabetic TLD of length at least two. -/
def zodEmailCheck (s : String) : Bool :=
  match chSplit '@' s.data with
  | [loc, dom] =>
    (match loc.getLast? with
     | some c => isEmailLocalLast c
     | none => false) &&
    loc.dropLast.all isEmailLocalChar &&
    (match loc with
     | '.' :: _ => false
     | _ => true) &&
    !hasDoubleDot s.data &&
    (let labels := chSplit '.' dom
     decide (labels.length ≥ 2) &&
     labels.dropLast.all (fun lab =>
       match lab with
       | [] => false
       | c :: t => (c.isAlpha || c.isDigit) && t.all (fun d => d.isAlpha || d.isDigit || d = '-')) &&
     (match labels.getLast? with
      | some tld => decide (tld.length ≥ 2) && tld.all Char.isAlpha
      | none => false))
  | _ => false

/-- The issues contributed by one field result. -/
def errsOf {α : Type} : Except Issue α → List Issue
  | .ok _ => []
  | .error i => [i]

/-- Field check `fullName: z.string().min(2, ...).max(80, ...)`. -/
def parseFullName (s : String) : Except Issue String :=
  if s.length < 2 then .error ⟨"fullName", "Name must be at least 2 characters"⟩
  else if s.length > 80 then .error ⟨"fullName", "Name must be less than 80 characters"⟩
  else .ok s

/-- Field check of email, `z.string().email('Invalid email').optional().or(z.literal('').transform(() => undefined))`:
the union first tries the email format, then maps the empty string to
`undefined`. (On a non-empty invalid value zod reports a union issue; it is
modelled as the custom message of the first branch — no theorem inspects it.) -/
def parseEmailField : Option String → Except Issue (Option String)
  | none => .ok none
  | some s =>
    if zodEmailCheck s then .ok (some s)
    else if s = "" then .ok none
    else .error ⟨"email", "Invalid email"⟩

/-- Field check `phone: z.string().regex(/^\d{10,15}$/, 'Phone must be 10-15 digits')`. -/
def parsePhone (s : String) : Except Issue String :=
  if s.data.all Char.isDigit && decide (10 ≤ s.length) && decide (s.length ≤ 15) then .ok s
  else .error ⟨"phone", "Phone must be 10-15 digits"⟩

/-- Enum check `z.enum(opts)` at the given path. (The zod default message spells out the
expected values; it is abbreviated here — no theorem inspects it.) -/
def parseEnum (path : String) (opts : List String) (s : String) : Except Issue String :=
  if opts.contains s then .ok s
  else .error ⟨path, "Invalid enum value"⟩

/-- Field check `bhk: z.enum(bhkOptions).optional().or(z.literal('').transform(() => undefined)).or(z.undefined())`. -/
def parseBhkField : Option String → Except Issue (Option String)
  | none => .ok none
  | some s =>
    if bhkOptions.contains s then .ok (some s)
    else if s = "" then .ok none
    else .error ⟨"bhk", "Invalid enum value"⟩

/-- Budget check `z.number().int().positive().optional().or(z.undefined())` at the given
path: `NaN` and non-positive numbers are rejected. -/
def parseBudget (path : String) : Option JsNum → Except Issue (Option Int)
  | none => .ok none
  | some .nan => .error ⟨path, "Expected number, received nan"⟩
  | some (.val n) =>
    if n > 0 then .ok (some n)
    else .error ⟨path, "Number must be greater than 0"⟩

/-- Field check of notes, `z.string().max(1000, ...).optional().or(z.literal('').transform(() => undefined)).or(z.undefined())`:
a present string of length at most 1000 (the empty string passes the first
union branch unchanged). -/
def parseNotes : Option String → Except Issue (Option String)
  | none => .ok none
  | some s =>
    if s.length ≤ 1000 then .ok (some s)
    else .error ⟨"notes", "Notes must be less than 1000 characters"⟩

/-- The base `z.object` of `createBuyerSchema`: every field checked, issues
collected in shape order (zod collects all field issues before refinements,
and refinements do not run when the base object fails). -/
def createBuyerBase (x : CreateInput) : Except (List Issue) ValidatedCreate :=
  let rFullName := parseFullName x.fullName
  let rEmail := parseEmailField x.email
  let rPhone := parsePhone x.phone
  let rCity := parseEnum "city" cityOptions x.city
  let rPT := parseEnum "propertyType" propertyTypeOptions x.propertyType
  let rBhk := parseBhkField x.bhk
  let rPurpose := parseEnum "purpose" purposeOptions x.purpose
  let rBMin := parseBudget "budgetMin" x.budgetMin
  let rBMax := parseBudget "budgetMax" x.budgetMax
  let rTimeline := parseEnum "timeline" timelineOptions x.timeline
  let rSource := parseEnum "source" sourceOptions x.source
  let rNotes := parseNotes x.notes
  match rFullName, rEmail, rPhone, rCity, rPT, rBhk, rPurpose, rBMin, rBMax, rTimeline, rSource, rNotes with
  | .ok a, .ok b, .ok c, .ok d, .ok e, .ok f, .ok g, .ok h, .ok i, .ok j, .ok k, .ok l =>
    .ok ⟨a, b, c, d, e, f, g, h, i, j, k, l, x.tags⟩
  | _, _, _, _, _, _, _, _, _, _, _, _ =>
    .error (errsOf rFullName ++ errsOf rEmail ++ errsOf rPhone ++ errsOf rCity ++
      errsOf rPT ++ errsOf rBhk ++ errsOf rPurpose ++ errsOf rBMin ++ errsOf rBMax ++
      errsOf rTimeline ++ errsOf rSource ++ errsOf rNotes)

/-- First refinement of both schemas: bhk is required when the property type
is Apartment or Villa (`!data.bhk` — after the base parse an empty bhk has
already become `none`). -/
def bhkRefineIssues (propertyType : String) (bhk : Option String) : List Issue :=
  if (propertyType = "Apartment" ∨ propertyType = "Villa") ∧ bhk = none then
    [⟨"bhk", "BHK is required for Apartment and Villa"⟩]
  else []

/-- Second refinement of both schemas:
`data.budgetMin && data.budgetMax && data.budgetMax < data.budgetMin`
fails on `budgetMax` — the JavaScript truthiness test means a zero bound is
treated as absent. -/
def budgetRefineIssues (budgetMin budgetMax : Option Int) : List Issue :=
  match budgetMin, budgetMax with
  | some a, some b =>
    if a ≠ 0 ∧ b ≠ 0 ∧ b < a then
      [⟨"budgetMax", "Maximum budget must be greater than minimum budget"⟩]
    else []
  | _, _ => []

/-- Model of `createBuyerSchema.parse`: base object, then the two chained refinements
(which both run and accumulate issues once the base object has parsed). -/
def createBuyerSchema (x : CreateInput) : Except (List Issue) ValidatedCreate :=
  match createBuyerBase x with
  | .error l => .error l
  | .ok v =>
    let issues := bhkRefineIssues v.propertyType v.bhk ++ budgetRefineIssues v.budgetMin v.budgetMax
    if issues.isEmpty then .ok v else .error issues

/-- The base `z.object` of `updateBuyerSchema` (the create shape plus
`status: z.enum(statusOptions)` between `source` and `notes`). -/
def updateBuyerBase (x : UpdateInput) : Except (List Issue) ValidatedUpdate :=
  let rFullName := parseFullName x.fullName
  let rEmail := parseEmailField x.email
  let rPhone := parsePhone x.phone
  let rCity := parseEnum "city" cityOptions x.city
  let rPT := parseEnum "propertyType" propertyTypeOptions x.propertyType
  let rBhk := parseBhkField x.bhk
  let rPurpose := parseEnum "purpose" purposeOptions x.purpose
  let rBMin := parseBudget "budgetMin" x.budgetMin
  let rBMax := parseBudget "budgetMax" x.budgetMax
  let rTimeline := parseEnum "timeline" timelineOptions x.timeline
  let rSource := parseEnum "source" sourceOptions x.source
  let rStatus := parseEnum "status" statusOptions x.status
  let rNotes := parseNotes x.notes
  match rFullName, rEmail, rPhone, rCity, rPT, rBhk, rPurpose, rBMin, rBMax, rTimeline, rSource, rStatus, rNotes with
  | .ok a, .ok b, .ok c, .ok d, .ok e, .ok f, .ok g, .ok h, .ok i, .ok j, .ok k, .ok m, .ok l =>
    .ok ⟨a, b, c, d, e, f, g, h, i, j, k, m, l, x.tags⟩
  | _, _, _, _, _, _, _, _, _, _, _, _, _ =>
    .error (errsOf rFullName ++ errsOf rEmail ++ errsOf rPhone ++ errsOf rCity ++
      errsOf rPT ++ errsOf rBhk ++ errsOf rPurpose ++ errsOf rBMin ++ errsOf rBMax ++
      errsOf rTimeline ++ errsOf rSource ++ errsOf rStatus ++ errsOf rNotes)

/-- Model of `updateBuyerSchema.parse`: base object plus the same two refinements. -/
def updateBuyerSchema (x : UpdateInput) : Except (List Issue) ValidatedUpdate :=
  match updateBuyerBase x with
  | .error l => .error l
  | .ok v =>
    let issues := bhkRefineIssues v.propertyType v.bhk ++ budgetRefineIssues v.budgetMin v.budgetMax
    if issues.isEmpty then .ok v else .error issues

/-! ## History, store and principal resolution -/

/-- The structured diff payload of a history row (`diff` jsonb column):
`{action: 'created', data: validatedData}` on create,
`{action: 'updated', changes: {field: {from, to}}}` on update — the update
handler only ever diffs the status field, so `changes` is a list of
`(field, from, to)` triples. -/
inductive Diff where
  | created (dataSnapshot : ValidatedCreate)
  | updated (changes : List (String × String × String))
deriving DecidableEq, Repr

/-- A row of the `buyer_history` table. -/
structure HistoryEntry where
  buyerId : String
  changedBy : Option String
  changedAt : Nat
  diff : Diff
deriving DecidableEq, Repr

/-- The persistent database: users, buyers, history, plus the id-generation
state (the uuid `defaultRandom()` of the schema is modelled as a fresh-id
counter). -/
structure Store where
  users : List User
  buyers : List Buyer
  history : List HistoryEntry
  nextId : Nat
deriving DecidableEq, Repr

/-- The id generated for the next inserted buyer row. -/
def freshId (n : Nat) : String := "buyer-" ++ toString n

/-- `o || d` on an optional header value: JavaScript treats the empty string
as falsy. -/
def jsOrDefault (o : Option String) (d : String) : String :=
  match o with
  | none => d
  | some s => if s = "" then d else s

/-- The two failure modes of the header-based resolvers: a missing (or empty)
`x-user-email` header, or an email with no row in the users table. The
handlers distinguish them by substring tests on the thrown message; both
marker texts survive the message wrapping in every handler that matches on
them. -/
inductive AuthErr where
  | noEmail
  | userNotFound (email : String)
deriving DecidableEq, Repr

/-- The email lookup branch shared by the resolvers:
`db.select(...).from(users).where(eq(users.email, userEmail.toLowerCase())).limit(1)`. -/
def lookupUserByEmail (users : List User) (userEmail : String) : Except AuthErr Principal :=
  match users.find? (fun u => u.email == lowerStr userEmail) with
  | none => .error (.userNotFound userEmail)
  | some u => .ok ⟨u.id, u.email, u.role⟩

/-- `getUserFromRequest` of the list/create route, the import route and the
export route (the three copies are identical up to log text): missing or
empty email fails; a supplied `x-user-id` longer than 10 characters is
trusted directly together with the claimed role; otherwise the users table
is consulted by lowercased email. -/
def getUserFromRequest (users : List User) (h : Headers) : Except AuthErr Principal :=
  match h.xUserEmail with
  | none => .error .noEmail
  | some userEmail =>
    if userEmail = "" then .error .noEmail
    else
      match h.xUserId with
      | some userId =>
        if userId ≠ "" ∧ userId.length > 10 then
          .ok ⟨userId, userEmail, jsOrDefault h.xUserRole "user"⟩
        else lookupUserByEmail users userEmail
      | none => lookupUserByEmail users userEmail

/-- `getUserFromRequest` of the single-record route
(`src/app/api/buyers/[id]/route.ts`): never fails, never reads `x-user-id`,
and returns the constant id `demo-user-1` with the claimed role. -/
def getUserFromRequestId (h : Headers) : Principal :=
  ⟨"demo-user-1", jsOrDefault h.xUserEmail "demo@example.com", jsOrDefault h.xUserRole "user"⟩

/-- The result of `checkOwnershipOrAdmin`. -/
structure OwnershipCheck where
  authorized : Bool
  buyer : Option Buyer
  reason : String
deriving DecidableEq, Repr

/-- `checkOwnershipOrAdmin(buyerId, currentUser)`: fetch the record, then
admin role or matching `ownerId` authorizes. -/
def checkOwnershipOrAdmin (bs : List Buyer) (buyerId : String) (currentUser : Principal) :
    OwnershipCheck :=
  match bs.find? (fun b => b.id == buyerId) with
  | none => ⟨false, none, "Buyer not found"⟩
  | some b =>
    if currentUser.role = "admin" then ⟨true, some b, "Admin access"⟩
    else if b.ownerId = some currentUser.id then ⟨true, some b, "Owner access"⟩
    else ⟨false, some b, "Not authorized - not owner"⟩

/-! ## List endpoint -/

/-- Insertion step of the `orderBy(desc(...))` model. -/
def insertDescBy {α : Type} (key : α → Nat) (x : α) : List α → List α
  | [] => [x]
  | c :: t => if key x ≥ key c then x :: c :: t else c :: insertDescBy key x t

/-- `orderBy(desc(key))`: stable sort, largest key first. -/
def sortDescBy {α : Type} (key : α → Nat) : List α → List α
  | [] => []
  | b :: t => insertDescBy key b (sortDescBy key t)

/-- The list query parameters after the `parseInt(... || '1')` / `|| ''`
normalisation at the top of the handler (the handlers are only exercised
with nonnegative page numbers, so the two numbers are modelled as naturals). -/
structure ListQuery where
  page : Nat
  limit : Nat
  search : String
  city : String
  status : String
  propertyType : String
deriving DecidableEq, Repr

/-- The `or(ilike(fullName), ilike(phone), ilike(email))` search condition;
`ilike` on a NULL email column is not satisfied. -/
def searchCond (search : String) (b : Buyer) : Bool :=
  ilikeContains b.fullName search || ilikeContains b.phone search ||
    (match b.email with
     | some e => ilikeContains e search
     | none => false)

/-- The combined where-clause built by `GET /api/buyers` in
`src/src/app/api/buyers/route.ts`: search/city/status/propertyType filters
only — note that no ownership condition is pushed and no principal is
consulted. -/
def whereListRoute (q : ListQuery) (b : Buyer) : Bool :=
  (if q.search ≠ "" then searchCond q.search b else true) &&
  (if q.city ≠ "" then b.city == q.city else true) &&
  (if q.status ≠ "" then b.status == q.status else true) &&
  (if q.propertyType ≠ "" then b.propertyType == q.propertyType else true)

/-- The combined where-clause built by the `GET` of `src/unnamed/part_001`:
an `ownerId = currentUser.id` condition is pushed exactly when the resolved
role is the string `user` (an admin — or any other role string — gets no
ownership condition), and the filter dropdown sentinels are ignored. -/
def whereListFixed (currentUser : Principal) (q : ListQuery) (b : Buyer) : Bool :=
  (if currentUser.role = "user" then b.ownerId == some currentUser.id else true) &&
  (if q.search ≠ "" then searchCond q.search b else true) &&
  (if q.city ≠ "" ∧ q.city ≠ "All Cities" then b.city == q.city else true) &&
  (if q.status ≠ "" ∧ q.status ≠ "All Statuses" then b.status == q.status else true) &&
  (if q.propertyType ≠ "" ∧ q.propertyType ≠ "All Types" then b.propertyType == q.propertyType else true)

/-- `Math.ceil(total / limit)` for the pagination payload (the handlers are
exercised with positive limits). -/
def pagesCeil (total limit : Nat) : Nat := (total + limit - 1) / limit

/-- The list response. -/
structure ListResult where
  status : Nat
  buyers : List Buyer
  page : Nat
  limit : Nat
  total : Nat
  pages : Nat
deriving DecidableEq, Repr

/-- `GET /api/buyers` of `src/src/app/api/buyers/route.ts`: filter, order by
`updatedAt` descending, slice by `offset = (page-1)*limit` and `limit`,
return the slice with the total count. The request headers are never read. -/
def listGET (store : Store) (q : ListQuery) : ListResult :=
  let filtered := store.buyers.filter (whereListRoute q)
  let sorted := sortDescBy Buyer.updatedAt filtered
  let result := (sorted.drop ((q.page - 1) * q.limit)).take q.limit
  ⟨200, result, q.page, q.limit, filtered.length, pagesCeil filtered.length q.limit⟩

/-- `GET /api/buyers` of `src/unnamed/part_001`: resolve the principal first
(an authentication failure yields a 200 response with an empty page), then
filter with the role-scoped where-clause, order, and slice. -/
def listGETFixed (store : Store) (h : Headers) (q : ListQuery) : ListResult :=
  match getUserFromRequest store.users h with
  | .error _ => ⟨200, [], 1, 10, 0, 0⟩
  | .ok currentUser =>
    let filtered := store.buyers.filter (whereListFixed currentUser q)
    let sorted := sortDescBy Buyer.updatedAt filtered
    let result := (sorted.drop ((q.page - 1) * q.limit)).take q.limit
    ⟨200, result, q.page, q.limit, filtered.length, pagesCeil filtered.length q.limit⟩

/-! ## Create endpoint -/

/-- `v || null` on a validated optional number (`budgetMin || null` in the
insert payloads — JavaScript truthiness maps a zero to null). -/
def numOrNull : Option Int → Option Int
  | some n => if n = 0 then none else some n
  | none => none

/-- `v || null` on a validated optional string. -/
def strOrNull : Option String → Option String
  | some s => if s = "" then none else some s
  | none => none

/-- The buyer row built by the insert statements of the create route and of
the importer: validated fields with `|| null` coercions, forced `status:
'New'`, the caller-chosen `ownerId`, and `createdAt = updatedAt = now`. -/
def buyerFromValidated (v : ValidatedCreate) (id : String) (ownerId : Option String)
    (now : Nat) : Buyer :=
  ⟨id, v.fullName, strOrNull v.email, v.phone, v.city, v.propertyType, strOrNull v.bhk,
   v.purpose, numOrNull v.budgetMin, numOrNull v.budgetMax, v.timeline, v.source, "New",
   strOrNull v.notes, v.tags, ownerId, now, now⟩

/-- The create response (201 carries the inserted row). -/
structure CreateResult where
  status : Nat
  buyer : Option Buyer
deriving DecidableEq, Repr

/-- `POST /api/buyers` (`src/src/app/api/buyers/route.ts`): resolve the
principal (both resolver failures produce messages matched to a 401), parse
with `createBuyerSchema` (400 on issues), insert with the current user as
owner and status `New`, then log a `created` history entry (best-effort; the
write is modelled as succeeding). -/
def createPOST (store : Store) (h : Headers) (body : CreateInput) (now : Nat) :
    CreateResult × Store :=
  match getUserFromRequest store.users h with
  | .error _ => (⟨401, none⟩, store)
  | .ok currentUser =>
    match createBuyerSchema body with
    | .error _ => (⟨400, none⟩, store)
    | .ok v =>
      let b := buyerFromValidated v (freshId store.nextId) (some currentUser.id) now
      let hist : HistoryEntry := ⟨b.id, some currentUser.id, now, .created v⟩
      (⟨201, some b⟩, ⟨store.users, store.buyers ++ [b], store.history ++ [hist], store.nextId + 1⟩)

/-! ## Single-record endpoints (`src/app/api/buyers/[id]/route.ts`) -/

/-- The single-record GET response: the record plus its ten most recent
history entries. -/
structure GetResult where
  status : Nat
  buyer : Option Buyer
  history : List HistoryEntry
deriving DecidableEq, Repr

/-- `GET /api/buyers/[id]`: no principal is consulted at all; 404 when the id
is absent, otherwise the record with its history (newest first, limit 10). -/
def getById (store : Store) (paramsId : String) : GetResult :=
  match store.buyers.find? (fun b => b.id == paramsId) with
  | none => ⟨404, none, []⟩
  | some b =>
    let hist :=
      (sortDescBy HistoryEntry.changedAt
        (store.history.filter (fun e => e.buyerId == paramsId))).take 10
    ⟨200, some b, hist⟩

/-- The buyer row after the PUT update statement: every scalar field replaced
from the validated payload (with the `|| null` coercions), `updatedAt` set to
now; id, ownerId and createdAt untouched. -/
def applyUpdate (v : ValidatedUpdate) (now : Nat) (b : Buyer) : Buyer :=
  { b with
    fullName := v.fullName
    email := strOrNull v.email
    phone := v.phone
    city := v.city
    propertyType := v.propertyType
    bhk := strOrNull v.bhk
    purpose := v.purpose
    budgetMin := numOrNull v.budgetMin
    budgetMax := numOrNull v.budgetMax
    timeline := v.timeline
    source := v.source
    status := v.status
    notes := strOrNull v.notes
    tags := v.tags
    updatedAt := now }

/-- The PUT response. -/
structure PutResult where
  status : Nat
  buyer : Option Buyer
deriving DecidableEq, Repr

/-- `PUT /api/buyers/[id]`: resolve the demo principal from the headers,
gate on `checkOwnershipOrAdmin` (403 on denial, including the not-found
case), validate with `updateBuyerSchema` (400 on issues), update the row,
and append one `updated` history entry exactly when the submitted status
differs from the stored one (only the status field is diffed). -/
def PUT (store : Store) (paramsId : String) (h : Headers) (body : UpdateInput) (now : Nat) :
    PutResult × Store :=
  let currentUser := getUserFromRequestId h
  let check := checkOwnershipOrAdmin store.buyers paramsId currentUser
  if !check.authorized then (⟨403, none⟩, store)
  else
    match updateBuyerSchema body with
    | .error _ => (⟨400, none⟩, store)
    | .ok v =>
      let newBuyers := store.buyers.map (fun b => if b.id == paramsId then applyUpdate v now b else b)
      let changes : List (String × String × String) :=
        match check.buyer with
        | some old => if v.status ≠ old.status then [("status", old.status, v.status)] else []
        | none => []
      let newHistory :=
        if changes.isEmpty then store.history
        else store.history ++ [⟨paramsId, some currentUser.id, now, .updated changes⟩]
      (⟨200, newBuyers.find? (fun b => b.id == paramsId)⟩,
       ⟨store.users, newBuyers, newHistory, store.nextId⟩)

/-- The DELETE response. -/
structure DeleteResult where
  status : Nat
  deletedBuyer : Option Buyer
deriving DecidableEq, Repr

/-- `DELETE /api/buyers/[id]`: resolve the demo principal, gate on
`checkOwnershipOrAdmin`, then hard-delete the row (the `buyer_history`
foreign key cascades, deleting the history rows of that buyer with it). -/
def DELETE (store : Store) (paramsId : String) (h : Headers) : DeleteResult × Store :=
  let currentUser := getUserFromRequestId h
  let check := checkOwnershipOrAdmin store.buyers paramsId currentUser
  if !check.authorized then (⟨403, none⟩, store)
  else
    let deleted := store.buyers.filter (fun b => b.id == paramsId)
    let remaining := store.buyers.filter (fun b => !(b.id == paramsId))
    let remainingHist := store.history.filter (fun e => !(e.buyerId == paramsId))
    match deleted with
    | [] => (⟨404, none⟩, ⟨store.users, remaining, remainingHist, store.nextId⟩)
    | d :: _ => (⟨200, some d⟩, ⟨store.users, remaining, remainingHist, store.nextId⟩)

/-! ## CSV import (`src/app/api/buyers/import/route.ts`) -/

/-- `columns[i]` with the JavaScript out-of-bounds `undefined` collapsed into
the empty string (the call sites only distinguish truthiness). -/
def colGet (cols : List String) (i : Nat) : String := cols.getD i ""

/-- `columns[i] || undefined`. -/
def optCol (cols : List String) (i : Nat) : Option String :=
  let s := colGet cols i
  if s = "" then none else some s

/-- `columns[i] || d`. -/
def defCol (cols : List String) (i : Nat) (d : String) : String :=
  let s := colGet cols i
  if s = "" then d else s

/-- `line.split(',').map(col => col.trim().replace(/^"|"$/g, ''))`. -/
def parseCsvLine (line : String) : List String :=
  (splitStr ',' line).map (fun col => stripOuterQuotes (jsTrim col))

/-- The `buyerData` object the import route builds from the positional
columns: note that column 12 is read as `notes` and column 13 as `tags`, and
that no column is read as `status` or as `ownerId`. -/
def buyerDataOfColumns (cols : List String) : CreateInput where
  fullName := colGet cols 1
  email := optCol cols 2
  phone := colGet cols 3
  city := defCol cols 4 "Chandigarh"
  propertyType := defCol cols 5 "Apartment"
  bhk := optCol cols 6
  purpose := defCol cols 7 "Buy"
  budgetMin :=
    match colGet cols 8 with
    | "" => none
    | s => some (jsParseInt s)
  budgetMax :=
    match colGet cols 9 with
    | "" => none
    | s => some (jsParseInt s)
  timeline := defCol cols 10 "0-3m"
  source := defCol cols 11 "Import"
  notes := optCol cols 12
  tags :=
    match colGet cols 13 with
    | "" => []
    | s => (splitStr ',' s).map jsTrim

/-- `error.issues.map(i => i.path.join('.') + ': ' + i.message).join(', ')`. -/
def formatZodIssues (issues : List Issue) : String :=
  joinSep ", " (issues.map (fun i => i.path ++ ": " ++ i.message))

/-- The running `results` object of the import loop. -/
structure ImportCounts where
  success : Nat
  failed : Nat
  errors : List String
deriving DecidableEq, Repr

/-- The per-row import loop (`for (let i = 0; ...)`): each data line is
parsed and validated independently; a valid row is inserted with the current
principal as owner and status `New` (and no history write); an
invalid row increments `failed` and appends `Row <i+2>: <formatted issues>`,
and the loop continues either way. -/
def importRows (currentUser : Principal) (now : Nat) :
    List String → Nat → Store → ImportCounts × Store
  | [], _, st => (⟨0, 0, []⟩, st)
  | line :: rest, i, st =>
    let cols := parseCsvLine line
    match createBuyerSchema (buyerDataOfColumns cols) with
    | .ok v =>
      let b := buyerFromValidated v (freshId st.nextId) (some currentUser.id) now
      let r := importRows currentUser now rest (i + 1)
        ⟨st.users, st.buyers ++ [b], st.history, st.nextId + 1⟩
      (⟨r.1.success + 1, r.1.failed, r.1.errors⟩, r.2)
    | .error issues =>
      let r := importRows currentUser now rest (i + 1) st
      (⟨r.1.success, r.1.failed + 1,
        ("Row " ++ toString (i + 2) ++ ": " ++ formatZodIssues issues) :: r.1.errors⟩, r.2)

/-- The import response. -/
structure ImportResult where
  status : Nat
  success : Nat
  failed : Nat
  errors : List String
deriving DecidableEq, Repr

/-- `POST /api/buyers/import`: resolve the principal first (missing email is
matched to a 401 by the outer catch, a failed lookup falls through to 500),
require a file and at least a header plus one data line after dropping
blank lines, then run the per-row loop over the data lines. -/
def importPOST (store : Store) (h : Headers) (file : Option String) (now : Nat) :
    ImportResult × Store :=
  match getUserFromRequest store.users h with
  | .error .noEmail => (⟨401, 0, 0, []⟩, store)
  | .error (.userNotFound _) => (⟨500, 0, 0, []⟩, store)
  | .ok currentUser =>
    match file with
    | none => (⟨400, 0, 0, []⟩, store)
    | some csvText =>
      let lines := (splitStr '\n' csvText).filter (fun l => jsTrim l ≠ "")
      if lines.length < 2 then (⟨400, 0, 0, []⟩, store)
      else
        let r := importRows currentUser now (lines.drop 1) 0 store
        (⟨200, r.1.success, r.1.failed, r.1.errors⟩, r.2)

/-! ## CSV export (`src/app/api/buyers/export/route.ts`) -/

/-- `s.replace(/"/g, '""')` for the notes cell. -/
def doubleQuotes (s : String) : String :=
  String.mk (s.data.foldr (fun c acc => if c = '"' then '"' :: '"' :: acc else c :: acc) [])

/-- The abstract clock rendered where the code calls `toISOString()` (an
injective rendering; no claim inspects the date format). -/
def isoString (n : Nat) : String := toString n

/-- The export header row, in the fixed column order. -/
def exportHeaders : List String :=
  ["ID", "Full Name", "Email", "Phone", "City", "Property Type", "BHK", "Purpose",
   "Budget Min", "Budget Max", "Timeline", "Source", "Status", "Notes", "Tags",
   "Owner ID", "Created At", "Updated At"]

/-- The 18 cells the export route renders for one buyer, in order: note that
`Status` is cell 12, `Notes` cell 13 and `Tags` cell 14; full name and tags
are always quoted, notes are quoted with internal quotes doubled, NULLs and
falsy numbers render as the empty string. -/
def exportFields (b : Buyer) : List String :=
  [b.id,
   "\"" ++ b.fullName ++ "\"",
   b.email.getD "",
   b.phone,
   b.city,
   b.propertyType,
   b.bhk.getD "",
   b.purpose,
   (match b.budgetMin with
    | some n => if n = 0 then "" else toString n
    | none => ""),
   (match b.budgetMax with
    | some n => if n = 0 then "" else toString n
    | none => ""),
   b.timeline,
   b.source,
   b.status,
   (match b.notes with
    | some s => if s = "" then "" else "\"" ++ doubleQuotes s ++ "\""
    | none => ""),
   "\"" ++ joinSep ", " b.tags ++ "\"",
   b.ownerId.getD "",
   isoString b.createdAt,
   isoString b.updatedAt]

/-- The export response (the CSV text on success). -/
structure ExportResult where
  status : Nat
  csv : Option String
deriving DecidableEq, Repr

/-- `GET /api/buyers/export`: resolve the principal (missing email matched to
401, failed lookup to 500); an admin exports every buyer, any other role only
the owned ones, ordered by `updatedAt` descending; rows are serialized with
`exportFields` and joined with newlines under the header row. -/
def exportGET (store : Store) (h : Headers) : ExportResult :=
  match getUserFromRequest store.users h with
  | .error .noEmail => ⟨401, none⟩
  | .error (.userNotFound _) => ⟨500, none⟩
  | .ok currentUser =>
    let allBuyers :=
      if currentUser.role = "admin" then sortDescBy Buyer.updatedAt store.buyers
      else sortDescBy Buyer.updatedAt
        (store.buyers.filter (fun b => b.ownerId == some currentUser.id))
    let csvRows := joinSep "," exportHeaders :: allBuyers.map (fun b => joinSep "," (exportFields b))
    ⟨200, some (joinSep "\n" csvRows)⟩

/-! ## Helper lemmas -/

/-- When the record is found, `checkOwnershipOrAdmin` reports that record in
every branch. -/
theorem checkOwnershipOrAdmin_buyer (bs : List Buyer) (id : String) (u : Principal)
    (R : Buyer) (hfind : bs.find? (fun b => b.id == id) = some R) :
    (checkOwnershipOrAdmin bs id u).buyer = some R := by
  unfold checkOwnershipOrAdmin
  rw [hfind]
  by_cases h1 : u.role = "admin"
  · simp [h1]
  · by_cases h2 : R.ownerId = some u.id <;> simp [h1, h2]

/-- The ownership check reads nothing of the principal but its id and role. -/
theorem checkOwnershipOrAdmin_ext (bs : List Buyer) (id : String) (u u' : Principal)
    (hid : u.id = u'.id) (hrole : u.role = u'.role) :
    checkOwnershipOrAdmin bs id u = checkOwnershipOrAdmin bs id u' := by
  unfold checkOwnershipOrAdmin
  rw [hid, hrole]

/-- Membership is preserved by the descending insertion step. -/
theorem mem_insertDescBy {α : Type} (key : α → Nat) (x a : α) (l : List α) :
    a ∈ insertDescBy key x l ↔ a = x ∨ a ∈ l := by
  induction l with
  | nil => simp [insertDescBy]
  | cons c t ih =>
    unfold insertDescBy
    by_cases h : key x ≥ key c
    · simp [h]
    · simp only [if_neg h, List.mem_cons, ih]
      tauto

/-- The descending sort is a permutation at the level of membership. -/
theorem mem_sortDescBy {α : Type} (key : α → Nat) (a : α) (l : List α) :
    a ∈ sortDescBy key l ↔ a ∈ l := by
  induction l with
  | nil => simp [sortDescBy]
  | cons c t ih =>
    unfold sortDescBy
    rw [mem_insertDescBy, ih, List.mem_cons]

/-! ## Claim C2 -/

/-- C2: for every principal `P` and existing buyer record `R`, the update and
delete operations are permitted exactly when `P.role` is admin or
`R.ownerId` equals `P.id`; every other principal is denied with 403; and the
decision depends on no attribute of the principal or record other than the
role, the principal id and the owner id. -/
theorem C2_update_delete_policy (bs : List Buyer) (id : String) (P : Principal) (R : Buyer)
    (hfind : bs.find? (fun b => b.id == id) = some R) :
    ((checkOwnershipOrAdmin bs id P).authorized = true
      ↔ (P.role = "admin" ∨ R.ownerId = some P.id))
    ∧ (∀ (store : Store) (h : Headers) (body : UpdateInput) (now : Nat),
        store.buyers = bs →
        (((PUT store id h body now).1.status = 403
           ↔ ¬ ((getUserFromRequestId h).role = "admin"
                 ∨ R.ownerId = some (getUserFromRequestId h).id))
         ∧ ((DELETE store id h).1.status = 403
           ↔ ¬ ((getUserFromRequestId h).role = "admin"
                 ∨ R.ownerId = some (getUserFromRequestId h).id))))
    ∧ (∀ (bs' : List Buyer) (id' : String) (P' : Principal) (R' : Buyer),
        bs'.find? (fun b => b.id == id') = some R' →
        P'.role = P.role → P'.id = P.id → R'.ownerId = R.ownerId →
        (checkOwnershipOrAdmin bs' id' P').authorized
          = (checkOwnershipOrAdmin bs id P).authorized) := by
  have hauth : ∀ (u : Principal),
      (checkOwnershipOrAdmin bs id u).authorized = true
        ↔ (u.role = "admin" ∨ R.ownerId = some u.id) := by
    intro u
    unfold checkOwnershipOrAdmin
    rw [hfind]
    by_cases h1 : u.role = "admin"
    · simp [h1]
    · by_cases h2 : R.ownerId = some u.id <;> simp [h1, h2]
  refine ⟨hauth P, ?_, ?_⟩
  · intro store h body now hsb
    subst hsb
    constructor
    · unfold PUT
      by_cases hc : (checkOwnershipOrAdmin store.buyers id (getUserFromRequestId h)).authorized
      · have hcond := (hauth _).mp hc
        cases hv : updateBuyerSchema body <;> simp [hc, hv, hcond]
      · have hncond : ¬ ((getUserFromRequestId h).role = "admin"
            ∨ R.ownerId = some (getUserFromRequestId h).id) := fun hcond =>
          hc ((hauth _).mpr hcond)
        simp only [Bool.not_eq_true] at hc
        simp [hc, hncond]
    · unfold DELETE
      by_cases hc : (checkOwnershipOrAdmin store.buyers id (getUserFromRequestId h)).authorized
      · have hcond := (hauth _).mp hc
        have hmem : R ∈ store.buyers := List.mem_of_find?_eq_some hfind
        have hne : store.buyers.filter (fun b => b.id == id) ≠ [] := by
          intro hnil
          have hp := List.find?_some hfind
          have hRf : R ∈ store.buyers.filter (fun b => b.id == id) := by
            rw [List.mem_filter]
            exact ⟨hmem, by simpa using hp⟩
          rw [hnil] at hRf
          exact absurd hRf (List.not_mem_nil R)
        cases hfil : store.buyers.filter (fun b => b.id == id) with
        | nil => exact absurd hfil hne
        | cons d t => simp [hc, hfil, hcond]
      · have hncond : ¬ ((getUserFromRequestId h).role = "admin"
            ∨ R.ownerId = some (getUserFromRequestId h).id) := fun hcond =>
          hc ((hauth _).mpr hcond)
        simp only [Bool.not_eq_true] at hc
        simp [hc, hncond]
  · intro bs' id' P' R' hfind' hrole hpid hown
    have h1 := hauth P
    have h2 : ∀ (u : Principal),
        (checkOwnershipOrAdmin bs' id' u).authorized = true
          ↔ (u.role = "admin" ∨ R'.ownerId = some u.id) := by
      intro u
      unfold checkOwnershipOrAdmin
      rw [hfind']
      by_cases ha : u.role = "admin"
      · simp [ha]
      · by_cases hb : R'.ownerId = some u.id <;> simp [ha, hb]
    have := (h2 P')
    rw [hrole, hpid, hown] at this
    rw [← h1] at this
    cases hx : (checkOwnershipOrAdmin bs' id' P').authorized <;>
      cases hy : (checkOwnershipOrAdmin bs id P).authorized <;>
        simp_all

/-- Fixture for the C2 witness: a record owned by the demo principal. -/
def c2buyer : Buyer :=
  ⟨"b1", "Jane Roe", none, "1234567890", "Mohali", "Plot", none, "Buy", none, none,
   "0-3m", "Website", "New", none, [], some "demo-user-1", 1, 1⟩

/-- Witness for C2 at a concrete store and principal. -/
theorem C2_update_delete_policy_witness :
    ([c2buyer].find? (fun b => b.id == "b1") = some c2buyer)
    ∧ ((checkOwnershipOrAdmin [c2buyer] "b1"
          ⟨"demo-user-1", "demo@example.com", "user"⟩).authorized = true
        ↔ ((Principal.mk "demo-user-1" "demo@example.com" "user").role = "admin"
            ∨ c2buyer.ownerId = some (Principal.mk "demo-user-1" "demo@example.com" "user").id)) :=
  ⟨by rfl,
   (C2_update_delete_policy [c2buyer] "b1" ⟨"demo-user-1", "demo@example.com", "user"⟩
      c2buyer (by rfl)).1⟩

/-! ## Claim C10 -/

/-- C10: the single-record update and delete endpoints resolve the principal
id to the constant `demo-user-1` whatever the headers say, and two requests
that differ only in `x-user-email` or `x-user-id` receive identical responses
and identical resulting stores — only `x-user-role` can change the outcome. -/
theorem C10_demo_principal_ignores_identity_headers (store : Store) (id : String)
    (h h' : Headers) (body : UpdateInput) (now : Nat)
    (hrole : h.xUserRole = h'.xUserRole) :
    (getUserFromRequestId h).id = "demo-user-1"
    ∧ PUT store id h body now = PUT store id h' body now
    ∧ DELETE store id h = DELETE store id h' := by
  have hid : (getUserFromRequestId h).id = (getUserFromRequestId h').id := rfl
  have hr : (getUserFromRequestId h).role = (getUserFromRequestId h').role := by
    dsimp only [getUserFromRequestId]
    rw [hrole]
  have hcheck : checkOwnershipOrAdmin store.buyers id
        ⟨"demo-user-1", jsOrDefault h.xUserEmail "demo@example.com",
         jsOrDefault h.xUserRole "user"⟩
      = checkOwnershipOrAdmin store.buyers id
        ⟨"demo-user-1", jsOrDefault h'.xUserEmail "demo@example.com",
         jsOrDefault h'.xUserRole "user"⟩ := by
    apply checkOwnershipOrAdmin_ext
    · rfl
    · simp [hrole]
  refine ⟨rfl, ?_, ?_⟩
  · simp only [PUT, getUserFromRequestId, hcheck]
  · simp only [DELETE, getUserFromRequestId, hcheck]

/-- Witness for C10: concrete headers differing in email and id but sharing
the role. -/
theorem C10_demo_principal_ignores_identity_headers_witness :
    ((Headers.mk (some "alice@x.com") (some "user") (some "alice-0001-xyz")).xUserRole
       = (Headers.mk none (some "user") none).xUserRole)
    ∧ (getUserFromRequestId ⟨some "alice@x.com", some "user", some "alice-0001-xyz"⟩).id
        = "demo-user-1"
    ∧ PUT ⟨[], [], [], 0⟩ "b9" ⟨some "alice@x.com", some "user", some "alice-0001-xyz"⟩
        ⟨"Jane Roe", none, "1234567890", "Mohali", "Plot", none, "Buy", none, none,
         "0-3m", "Website", "New", none, []⟩ 7
      = PUT ⟨[], [], [], 0⟩ "b9" ⟨none, some "user", none⟩
        ⟨"Jane Roe", none, "1234567890", "Mohali", "Plot", none, "Buy", none, none,
         "0-3m", "Website", "New", none, []⟩ 7
    ∧ DELETE ⟨[], [], [], 0⟩ "b9" ⟨some "alice@x.com", some "user", some "alice-0001-xyz"⟩
      = DELETE ⟨[], [], [], 0⟩ "b9" ⟨none, some "user", none⟩ :=
  ⟨by rfl,
   (C10_demo_principal_ignores_identity_headers ⟨[], [], [], 0⟩ "b9"
      ⟨some "alice@x.com", some "user", some "alice-0001-xyz"⟩ ⟨none, some "user", none⟩
      ⟨"Jane Roe", none, "1234567890", "Mohali", "Plot", none, "Buy", none, none,
       "0-3m", "Website", "New", none, []⟩ 7 (by rfl)).1,
   (C10_demo_principal_ignores_identity_headers ⟨[], [], [], 0⟩ "b9"
      ⟨some "alice@x.com", some "user", some "alice-0001-xyz"⟩ ⟨none, some "user", none⟩
      ⟨"Jane Roe", none, "1234567890", "Mohali", "Plot", none, "Buy", none, none,
       "0-3m", "Website", "New", none, []⟩ 7 (by rfl)).2.1,
   (C10_demo_principal_ignores_identity_headers ⟨[], [], [], 0⟩ "b9"
      ⟨some "alice@x.com", some "user", some "alice-0001-xyz"⟩ ⟨none, some "user", none⟩
      ⟨"Jane Roe", none, "1234567890", "Mohali", "Plot", none, "Buy", none, none,
       "0-3m", "Website", "New", none, []⟩ 7 (by rfl)).2.2⟩

/-! ## Claim C9 -/

/-- A budget accepted as present by `parseBudget` passed the positivity
check. -/
theorem parseBudget_pos (p : String) (o : Option JsNum) (n : Int)
    (h : parseBudget p o = .ok (some n)) : 0 < n := by
  cases o with
  | none => simp [parseBudget] at h
  | some j =>
    cases j with
    | nan => simp [parseBudget] at h
    | val m =>
      simp only [parseBudget] at h
      by_cases hm : m > 0
      · rw [if_pos hm] at h
        injection h with h'
        injection h' with h''
        exact h'' ▸ hm
      · rw [if_neg hm] at h
        exact absurd h (by simp)

/-- A successful create base parse produced its budgets through
`parseBudget`. -/
theorem createBuyerBase_budget (x : CreateInput) (v : ValidatedCreate)
    (h : createBuyerBase x = .ok v) :
    parseBudget "budgetMin" x.budgetMin = .ok v.budgetMin
    ∧ parseBudget "budgetMax" x.budgetMax = .ok v.budgetMax := by
  unfold createBuyerBase at h
  dsimp only at h
  split at h
  · injection h with h'
    subst h'
    exact ⟨by assumption, by assumption⟩
  · exact absurd h (by simp)

/-- A successful update base parse produced its budgets through
`parseBudget`. -/
theorem updateBuyerBase_budget (y : UpdateInput) (v : ValidatedUpdate)
    (h : updateBuyerBase y = .ok v) :
    parseBudget "budgetMin" y.budgetMin = .ok v.budgetMin
    ∧ parseBudget "budgetMax" y.budgetMax = .ok v.budgetMax := by
  unfold updateBuyerBase at h
  dsimp only at h
  split at h
  · injection h with h'
    subst h'
    exact ⟨by assumption, by assumption⟩
  · exact absurd h (by simp)

/-- C9: on a create or update input that passes every per-field check, the
budget refinement fails — with the issue attributed to `budgetMax` — exactly
when both bounds are present and the maximum is below the minimum; when the
maximum is at least the minimum or either bound is absent, no issue on path
`budgetMax` can be produced. -/
theorem C9_budget_max_validation (x : CreateInput) (y : UpdateInput)
    (vx : ValidatedCreate) (vy : ValidatedUpdate)
    (hx : createBuyerBase x = .ok vx) (hy : updateBuyerBase y = .ok vy) :
    ((∃ a b, vx.budgetMin = some a ∧ vx.budgetMax = some b ∧ b < a) →
       ∃ l, createBuyerSchema x = .error l ∧ ∃ i ∈ l, i.path = "budgetMax")
    ∧ ((¬ ∃ a b, vx.budgetMin = some a ∧ vx.budgetMax = some b ∧ b < a) →
       ∀ l, createBuyerSchema x = .error l → ∀ i ∈ l, i.path ≠ "budgetMax")
    ∧ ((∃ a b, vy.budgetMin = some a ∧ vy.budgetMax = some b ∧ b < a) →
       ∃ l, updateBuyerSchema y = .error l ∧ ∃ i ∈ l, i.path = "budgetMax")
    ∧ ((¬ ∃ a b, vy.budgetMin = some a ∧ vy.budgetMax = some b ∧ b < a) →
       ∀ l, updateBuyerSchema y = .error l → ∀ i ∈ l, i.path ≠ "budgetMax") := by
  have hbhkPath : ∀ pt bhk (i : Issue), i ∈ bhkRefineIssues pt bhk → i.path = "bhk" := by
    intro pt bhk i hi
    unfold bhkRefineIssues at hi
    by_cases hc : (pt = "Apartment" ∨ pt = "Villa") ∧ bhk = none
    · rw [if_pos hc] at hi
      simp only [List.mem_singleton] at hi
      rw [hi]
    · rw [if_neg hc] at hi
      exact absurd hi (List.not_mem_nil i)
  have hposX : ∀ a, vx.budgetMin = some a → 0 < a := by
    intro a ha
    have h1 := (createBuyerBase_budget x vx hx).1
    rw [ha] at h1
    exact parseBudget_pos _ _ _ h1
  have hposX' : ∀ b, vx.budgetMax = some b → 0 < b := by
    intro b hb
    have h1 := (createBuyerBase_budget x vx hx).2
    rw [hb] at h1
    exact parseBudget_pos _ _ _ h1
  have hposY : ∀ a, vy.budgetMin = some a → 0 < a := by
    intro a ha
    have h1 := (updateBuyerBase_budget y vy hy).1
    rw [ha] at h1
    exact parseBudget_pos _ _ _ h1
  have hposY' : ∀ b, vy.budgetMax = some b → 0 < b := by
    intro b hb
    have h1 := (updateBuyerBase_budget y vy hy).2
    rw [hb] at h1
    exact parseBudget_pos _ _ _ h1
  refine ⟨?_, ?_, ?_, ?_⟩
  · rintro ⟨a, b, hma, hmb, hba⟩
    have hbud : budgetRefineIssues vx.budgetMin vx.budgetMax
        = [⟨"budgetMax", "Maximum budget must be greater than minimum budget"⟩] := by
      rw [hma, hmb]
      simp only [budgetRefineIssues]
      rw [if_pos ⟨(hposX a hma).ne', (hposX' b hmb).ne', hba⟩]
    refine ⟨bhkRefineIssues vx.propertyType vx.bhk
        ++ [⟨"budgetMax", "Maximum budget must be greater than minimum budget"⟩], ?_, ?_⟩
    · unfold createBuyerSchema
      rw [hx]
      dsimp only
      rw [hbud]
      rw [if_neg (by cases hB : bhkRefineIssues vx.propertyType vx.bhk <;> simp [hB])]
    · exact ⟨⟨"budgetMax", "Maximum budget must be greater than minimum budget"⟩,
        List.mem_append_right _ (List.mem_singleton.mpr rfl), rfl⟩
  · intro hn l hl i hi
    have hbud0 : budgetRefineIssues vx.budgetMin vx.budgetMax = [] := by
      cases hma : vx.budgetMin with
      | none => rfl
      | some a =>
        cases hmb : vx.budgetMax with
        | none => rfl
        | some b =>
          simp only [budgetRefineIssues]
          rw [if_neg]
          exact fun hcond => hn ⟨a, b, hma, hmb, hcond.2.2⟩
    unfold createBuyerSchema at hl
    rw [hx] at hl
    dsimp only at hl
    rw [hbud0, List.append_nil] at hl
    split at hl
    · exact absurd hl (by simp)
    · injection hl with hl'
      subst hl'
      exact fun hpath => by
        have := hbhkPath _ _ i hi
        rw [hpath] at this
        exact absurd this (by decide)
  · rintro ⟨a, b, hma, hmb, hba⟩
    have hbud : budgetRefineIssues vy.budgetMin vy.budgetMax
        = [⟨"budgetMax", "Maximum budget must be greater than minimum budget"⟩] := by
      rw [hma, hmb]
      simp only [budgetRefineIssues]
      rw [if_pos ⟨(hposY a hma).ne', (hposY' b hmb).ne', hba⟩]
    refine ⟨bhkRefineIssues vy.propertyType vy.bhk
        ++ [⟨"budgetMax", "Maximum budget must be greater than minimum budget"⟩], ?_, ?_⟩
    · unfold updateBuyerSchema
      rw [hy]
      dsimp only
      rw [hbud]
      rw [if_neg (by cases hB : bhkRefineIssues vy.propertyType vy.bhk <;> simp [hB])]
    · exact ⟨⟨"budgetMax", "Maximum budget must be greater than minimum budget"⟩,
        List.mem_append_right _ (List.mem_singleton.mpr rfl), rfl⟩
  · intro hn l hl i hi
    have hbud0 : budgetRefineIssues vy.budgetMin vy.budgetMax = [] := by
      cases hma : vy.budgetMin with
      | none => rfl
      | some a =>
        cases hmb : vy.budgetMax with
        | none => rfl
        | some b =>
          simp only [budgetRefineIssues]
          rw [if_neg]
          exact fun hcond => hn ⟨a, b, hma, hmb, hcond.2.2⟩
    unfold updateBuyerSchema at hl
    rw [hy] at hl
    dsimp only at hl
    rw [hbud0, List.append_nil] at hl
    split at hl
    · exact absurd hl (by simp)
    · injection hl with hl'
      subst hl'
      exact fun hpath => by
        have := hbhkPath _ _ i hi
        rw [hpath] at this
        exact absurd this (by decide)

/-- Fixture for the C9 witness: create input with budgetMin 7000000 and
budgetMax 5000000 (the example of the specification). -/
def c9x : CreateInput :=
  ⟨"John Doe", none, "1234567890", "Chandigarh", "Apartment", some "2", "Buy",
   some (.val 7000000), some (.val 5000000), "0-3m", "Website", none, []⟩

/-- The base-parse output of `c9x`. -/
def c9vx : ValidatedCreate :=
  ⟨"John Doe", none, "1234567890", "Chandigarh", "Apartment", some "2", "Buy",
   some 7000000, some 5000000, "0-3m", "Website", none, []⟩

/-- Fixture for the C9 witness: the matching update input. -/
def c9y : UpdateInput :=
  ⟨"John Doe", none, "1234567890", "Chandigarh", "Apartment", some "2", "Buy",
   some (.val 7000000), some (.val 5000000), "0-3m", "Website", "New", none, []⟩

/-- The base-parse output of `c9y`. -/
def c9vy : ValidatedUpdate :=
  ⟨"John Doe", none, "1234567890", "Chandigarh", "Apartment", some "2", "Buy",
   some 7000000, some 5000000, "0-3m", "Website", "New", none, []⟩

/-- Witness for C9 at the concrete inverted-budget inputs. -/
theorem C9_budget_max_validation_witness :
    createBuyerBase c9x = .ok c9vx
    ∧ updateBuyerBase c9y = .ok c9vy
    ∧ (∃ l, createBuyerSchema c9x = .error l ∧ ∃ i ∈ l, i.path = "budgetMax")
    ∧ (∃ l, updateBuyerSchema c9y = .error l ∧ ∃ i ∈ l, i.path = "budgetMax") :=
  ⟨by rfl, by rfl,
   (C9_budget_max_validation c9x c9y c9vx c9vy (by rfl) (by rfl)).1
     ⟨7000000, 5000000, rfl, rfl, by decide⟩,
   (C9_budget_max_validation c9x c9y c9vx c9vy (by rfl) (by rfl)).2.2.1
     ⟨7000000, 5000000, rfl, rfl, by decide⟩⟩

/-! ## Claim C6 -/

/-- C6: a successful update appends exactly one history entry, recording only
the status transition, when the submitted status differs from the stored one,
and appends nothing when the status is unchanged — whatever happened to the
other fields. -/
theorem C6_history_records_status_transition (store : Store) (id : String) (h : Headers)
    (body : UpdateInput) (now : Nat) (old : Buyer) (v : ValidatedUpdate)
    (hfind : store.buyers.find? (fun b => b.id == id) = some old)
    (hauth : (checkOwnershipOrAdmin store.buyers id (getUserFromRequestId h)).authorized = true)
    (hval : updateBuyerSchema body = .ok v) :
    (PUT store id h body now).1.status = 200
    ∧ (PUT store id h body now).2.history =
        store.history ++
          (if v.status ≠ old.status then
            [⟨id, some "demo-user-1", now, .updated [("status", old.status, v.status)]⟩]
           else []) := by
  have hbuyer : (checkOwnershipOrAdmin store.buyers id (getUserFromRequestId h)).buyer
      = some old := checkOwnershipOrAdmin_buyer _ _ _ _ hfind
  have hdemo : (getUserFromRequestId h).id = "demo-user-1" := rfl
  constructor
  · simp [PUT, hauth, hval]
  · by_cases hs : v.status ≠ old.status
    · simp [PUT, hauth, hval, hbuyer, hs, hdemo]
    · simp [PUT, hauth, hval, hbuyer, hs]

/-- Fixture for the C6 witness: a stored record with status New owned by the
demo principal. -/
def c6buyer : Buyer :=
  ⟨"b6", "Jane Roe", none, "1234567890", "Mohali", "Plot", none, "Buy", none, none,
   "0-3m", "Website", "New", none, [], some "demo-user-1", 1, 1⟩

/-- Fixture for the C6 witness: an update changing only the status. -/
def c6body : UpdateInput :=
  ⟨"Jane Roe", none, "1234567890", "Mohali", "Plot", none, "Buy", none, none,
   "0-3m", "Website", "Qualified", none, []⟩

/-- The parse output of `c6body`. -/
def c6v : ValidatedUpdate :=
  ⟨"Jane Roe", none, "1234567890", "Mohali", "Plot", none, "Buy", none, none,
   "0-3m", "Website", "Qualified", none, []⟩

/-- Witness for C6: the concrete status change from New to Qualified. -/
theorem C6_history_records_status_transition_witness :
    ([c6buyer].find? (fun b => b.id == "b6") = some c6buyer)
    ∧ ((checkOwnershipOrAdmin [c6buyer] "b6"
          (getUserFromRequestId ⟨none, none, none⟩)).authorized = true)
    ∧ updateBuyerSchema c6body = .ok c6v
    ∧ (PUT ⟨[], [c6buyer], [], 0⟩ "b6" ⟨none, none, none⟩ c6body 9).1.status = 200
    ∧ (PUT ⟨[], [c6buyer], [], 0⟩ "b6" ⟨none, none, none⟩ c6body 9).2.history =
        [] ++
          (if c6v.status ≠ c6buyer.status then
            [⟨"b6", some "demo-user-1", 9, .updated [("status", c6buyer.status, c6v.status)]⟩]
           else []) :=
  ⟨by rfl, by rfl, by rfl,
   (C6_history_records_status_transition ⟨[], [c6buyer], [], 0⟩ "b6" ⟨none, none, none⟩
      c6body 9 c6buyer c6v (by rfl) (by rfl) (by rfl)).1,
   (C6_history_records_status_transition ⟨[], [c6buyer], [], 0⟩ "b6" ⟨none, none, none⟩
      c6body 9 c6buyer c6v (by rfl) (by rfl) (by rfl)).2⟩

/-! ## Claim C1 -/

/-- Fixture for the C1 counterexample: a record owned by a foreign user. -/
def c1buyer : Buyer :=
  ⟨"b1", "Jane Roe", none, "1234567890", "Mohali", "Plot", none, "Buy", none, none,
   "0-3m", "Website", "New", none, [], some "user-B-0002", 1, 1⟩

/-- Fixture for the C1 counterexample. -/
def c1store : Store := ⟨[], [c1buyer], [], 0⟩

/-- Fixture for the C1 counterexample: headers of an authenticated non-admin
principal (the x-user-id is longer than 10 characters, so it is trusted). -/
def c1headers : Headers := ⟨some "a@x.com", some "user", some "user-A-0001"⟩

/-- Counterexample to C1: the list handler of
`src/src/app/api/buyers/route.ts` returns a record owned by `user-B-0002` to
the authenticated non-admin principal `user-A-0001` — it never consults the
principal at all, so the claimed owner restriction fails there. -/
theorem C1_counterexample :
    getUserFromRequest c1store.users c1headers = .ok ⟨"user-A-0001", "a@x.com", "user"⟩
    ∧ (Principal.mk "user-A-0001" "a@x.com" "user").role ≠ "admin"
    ∧ (listGET c1store ⟨1, 10, "", "", "", ""⟩).buyers = [c1buyer]
    ∧ c1buyer.ownerId ≠ some (Principal.mk "user-A-0001" "a@x.com" "user").id :=
  ⟨by rfl, by decide, by rfl, by decide⟩

/-- C1 (amended): the list variant in `src/unnamed/part_001` does scope the
page: when the resolved principal has role `user` every returned record has
the principal as owner, and when the role is `admin` the where-clause is
independent of the owner column. The variant in
`src/src/app/api/buyers/route.ts` applies no owner restriction at all (see
the counterexample). -/
theorem C1_owner_scoped_list (store : Store) (h : Headers) (q : ListQuery)
    (P : Principal) (hP : getUserFromRequest store.users h = .ok P) :
    (P.role = "user" → ∀ b ∈ (listGETFixed store h q).buyers, b.ownerId = some P.id)
    ∧ (P.role = "admin" → ∀ (b : Buyer) (o : Option String),
        whereListFixed P q b = whereListFixed P q { b with ownerId := o }) := by
  constructor
  · intro hrole b hb
    unfold listGETFixed at hb
    rw [hP] at hb
    dsimp only at hb
    have h1 : b ∈ sortDescBy Buyer.updatedAt (store.buyers.filter (whereListFixed P q)) :=
      List.drop_subset _ _ (List.take_subset _ _ hb)
    rw [mem_sortDescBy] at h1
    have h2 := (List.mem_filter.mp h1).2
    unfold whereListFixed at h2
    rw [hrole] at h2
    simp at h2
    exact h2.1.1.1.1
  · intro hrole b o
    unfold whereListFixed
    rw [hrole]
    rfl

/-- Fixture for the C1 witness: one record owned by the requesting principal
and one foreign record. -/
def c1wStore : Store :=
  ⟨[],
   [⟨"b1", "Jane Roe", none, "1234567890", "Mohali", "Plot", none, "Buy", none, none,
     "0-3m", "Website", "New", none, [], some "user-A-0001", 2, 2⟩,
    ⟨"b2", "John Doe", none, "1234567891", "Mohali", "Plot", none, "Buy", none, none,
     "0-3m", "Website", "New", none, [], some "user-B-0002", 1, 1⟩],
   [], 0⟩

/-- Witness for C1 (amended) at a concrete store and principal. -/
theorem C1_owner_scoped_list_witness :
    getUserFromRequest c1wStore.users ⟨some "a@x.com", some "user", some "user-A-0001"⟩
      = .ok ⟨"user-A-0001", "a@x.com", "user"⟩
    ∧ ((Principal.mk "user-A-0001" "a@x.com" "user").role = "user" →
        ∀ b ∈ (listGETFixed c1wStore ⟨some "a@x.com", some "user", some "user-A-0001"⟩
            ⟨1, 10, "", "", "", ""⟩).buyers,
          b.ownerId = some (Principal.mk "user-A-0001" "a@x.com" "user").id) :=
  ⟨by rfl,
   (C1_owner_scoped_list c1wStore ⟨some "a@x.com", some "user", some "user-A-0001"⟩
      ⟨1, 10, "", "", "", ""⟩ ⟨"user-A-0001", "a@x.com", "user"⟩ (by rfl)).1⟩

/-! ## Import loop lemmas -/

/-- The import loop never touches the history log. -/
theorem importRows_history (P : Principal) (now : Nat) (rows : List String) (i : Nat)
    (st : Store) : (importRows P now rows i st).2.history = st.history := by
  induction rows generalizing i st with
  | nil => rfl
  | cons line rest ih =>
    unfold importRows
    dsimp only
    cases hv : createBuyerSchema (buyerDataOfColumns (parseCsvLine line)) with
    | error issues =>
      simp only [hv]
      exact ih (i + 1) st
    | ok v =>
      simp only [hv]
      exact ih (i + 1) _

/-- Every buyer present after the import loop was either already in the store
or was inserted with the importing principal as owner and status `New`. -/
theorem importRows_buyers_mem (P : Principal) (now : Nat) (rows : List String) (i : Nat)
    (st : Store) :
    ∀ b ∈ (importRows P now rows i st).2.buyers,
      b ∈ st.buyers ∨ (b.ownerId = some P.id ∧ b.status = "New") := by
  induction rows generalizing i st with
  | nil => exact fun b hb => .inl hb
  | cons line rest ih =>
    intro b hb
    unfold importRows at hb
    dsimp only at hb
    cases hv : createBuyerSchema (buyerDataOfColumns (parseCsvLine line)) with
    | error issues =>
      simp only [hv] at hb
      exact ih (i + 1) st b hb
    | ok v =>
      simp only [hv] at hb
      rcases ih (i + 1) _ b hb with hmem | hforced
      · rcases List.mem_append.mp hmem with hold | hnew
        · exact .inl hold
        · rcases List.mem_singleton.mp hnew with rfl
          exact .inr ⟨rfl, rfl⟩
      · exact .inr hforced

/-! ## Claim C3 -/

/-- C3: whatever the CSV rows contain, every record the import endpoint adds
to the store carries the importing principal as owner and status `New` — the
CSV has no way to spoof either. -/
theorem C3_import_forces_owner_and_status (store : Store) (h : Headers)
    (file : Option String) (now : Nat) (P : Principal)
    (hP : getUserFromRequest store.users h = .ok P) :
    ∀ b ∈ (importPOST store h file now).2.buyers,
      b ∈ store.buyers ∨ (b.ownerId = some P.id ∧ b.status = "New") := by
  intro b hb
  unfold importPOST at hb
  rw [hP] at hb
  cases file with
  | none => exact .inl hb
  | some csvText =>
    dsimp only at hb
    by_cases hlen : ((splitStr '\n' csvText).filter (fun l => jsTrim l ≠ "")).length < 2
    · rw [if_pos hlen] at hb
      exact .inl hb
    · rw [if_neg hlen] at hb
      exact importRows_buyers_mem P now _ 0 store b hb

/-- Witness for C3: importing one spoofing row (which claims owner
`user-Z-0009` in the ownerId column) as `user-P-0003`. -/
theorem C3_import_forces_owner_and_status_witness :
    getUserFromRequest ([] : List User) ⟨some "p@x.com", some "user", some "user-P-0003"⟩
      = .ok ⟨"user-P-0003", "p@x.com", "user"⟩
    ∧ ∀ b ∈ (importPOST ⟨[], [], [], 0⟩ ⟨some "p@x.com", some "user", some "user-P-0003"⟩
        (some "h\nid0,Jane Roe,,1234567890,Mohali,Plot,,Buy,,,0-3m,Website,note,tag,Qualified,user-Z-0009")
        5).2.buyers,
        b ∈ ([] : List Buyer)
          ∨ (b.ownerId = some (Principal.mk "user-P-0003" "p@x.com" "user").id
              ∧ b.status = "New") :=
  ⟨by rfl,
   C3_import_forces_owner_and_status ⟨[], [], [], 0⟩
     ⟨some "p@x.com", some "user", some "user-P-0003"⟩
     (some "h\nid0,Jane Roe,,1234567890,Mohali,Plot,,Buy,,,0-3m,Website,note,tag,Qualified,user-Z-0009")
     5 ⟨"user-P-0003", "p@x.com", "user"⟩ (by rfl)⟩

/-! ## Claim C7 -/

/-- C7 (amended): the import endpoint records no history entry at all — the
history log after any import is exactly the history log before it. -/
theorem C7_import_writes_no_history (store : Store) (h : Headers) (file : Option String)
    (now : Nat) : (importPOST store h file now).2.history = store.history := by
  unfold importPOST
  cases hu : getUserFromRequest store.users h with
  | error e => cases e <;> rfl
  | ok P =>
    cases file with
    | none => rfl
    | some csvText =>
      dsimp only
      by_cases hlen : ((splitStr '\n' csvText).filter (fun l => jsTrim l ≠ "")).length < 2
      · rw [if_pos hlen]
      · rw [if_neg hlen]
        exact importRows_history P now _ 0 store

/-- Counterexample to C7: a one-row import that succeeds (one record
inserted) while the history log stays empty — no `created` entry is
recorded. -/
theorem C7_counterexample :
    (importPOST ⟨[], [], [], 0⟩ ⟨some "p@x.com", some "user", some "user-P-0003"⟩
        (some "h\nid0,Jane Roe,,1234567890,Mohali,Plot,,Buy,,,0-3m,Website") 5).1.success = 1
    ∧ (importPOST ⟨[], [], [], 0⟩ ⟨some "p@x.com", some "user", some "user-P-0003"⟩
        (some "h\nid0,Jane Roe,,1234567890,Mohali,Plot,,Buy,,,0-3m,Website") 5).2.buyers.length = 1
    ∧ (importPOST ⟨[], [], [], 0⟩ ⟨some "p@x.com", some "user", some "user-P-0003"⟩
        (some "h\nid0,Jane Roe,,1234567890,Mohali,Plot,,Buy,,,0-3m,Website") 5).2.history = [] :=
  ⟨by rfl, by rfl, by rfl⟩

/-! ## Claim C4 -/

/-- C4 (amended): with no claimed email in the headers, the create, import
and export endpoints fail with 401 and leave the store untouched, and the
`part_001` list endpoint returns an empty 200 page; but the single-record
endpoints never return 401 — they substitute the demo principal (see the
counterexample). -/
theorem C4_missing_email_401 (store : Store) (body : CreateInput) (file : Option String)
    (now : Nat) (q : ListQuery) (h : Headers) (hnoemail : h.xUserEmail = none) :
    ((createPOST store h body now).1.status = 401 ∧ (createPOST store h body now).2 = store)
    ∧ ((importPOST store h file now).1.status = 401 ∧ (importPOST store h file now).2 = store)
    ∧ (exportGET store h).status = 401
    ∧ ((listGETFixed store h q).status = 200 ∧ (listGETFixed store h q).buyers = []) := by
  have hu : getUserFromRequest store.users h = .error .noEmail := by
    unfold getUserFromRequest
    rw [hnoemail]
  refine ⟨⟨?_, ?_⟩, ⟨?_, ?_⟩, ?_, ?_, ?_⟩ <;>
    simp [createPOST, importPOST, exportGET, listGETFixed, hu]

/-- Fixture for the C4 counterexample: a record owned by the demo
principal. -/
def c4buyer : Buyer :=
  ⟨"b1", "Jane Roe", none, "1234567890", "Mohali", "Plot", none, "Buy", none, none,
   "0-3m", "Website", "New", none, [], some "demo-user-1", 1, 1⟩

/-- Fixture for the C4 counterexample: a valid update payload. -/
def c4body : UpdateInput :=
  ⟨"Jane Roe", none, "1234567890", "Mohali", "Plot", none, "Buy", none, none,
   "0-3m", "Website", "Qualified", none, []⟩

/-- Counterexample to C4: a single-record update request whose headers carry
no email at all succeeds with 200 and mutates the store (and the matching
delete request also succeeds) — neither fails with 401. -/
theorem C4_counterexample :
    (Headers.mk none none none).xUserEmail = none
    ∧ (PUT ⟨[], [c4buyer], [], 0⟩ "b1" ⟨none, none, none⟩ c4body 9).1.status = 200
    ∧ (PUT ⟨[], [c4buyer], [], 0⟩ "b1" ⟨none, none, none⟩ c4body 9).2.buyers ≠ [c4buyer]
    ∧ (DELETE ⟨[], [c4buyer], [], 0⟩ "b1" ⟨none, none, none⟩).1.status = 200
    ∧ (DELETE ⟨[], [c4buyer], [], 0⟩ "b1" ⟨none, none, none⟩).2.buyers = [] :=
  ⟨by rfl, by rfl, by decide, by rfl, by rfl⟩

/-- Witness for C4 (amended) at a concrete email-less request. -/
theorem C4_missing_email_401_witness :
    (Headers.mk none (some "admin") none).xUserEmail = none
    ∧ ((createPOST ⟨[], [], [], 0⟩ ⟨none, some "admin", none⟩
          ⟨"Jane Roe", none, "1234567890", "Mohali", "Plot", none, "Buy", none, none,
           "0-3m", "Website", none, []⟩ 3).1.status = 401
        ∧ (createPOST ⟨[], [], [], 0⟩ ⟨none, some "admin", none⟩
          ⟨"Jane Roe", none, "1234567890", "Mohali", "Plot", none, "Buy", none, none,
           "0-3m", "Website", none, []⟩ 3).2 = ⟨[], [], [], 0⟩)
    ∧ ((importPOST ⟨[], [], [], 0⟩ ⟨none, some "admin", none⟩ (some "h\nrow") 3).1.status = 401
        ∧ (importPOST ⟨[], [], [], 0⟩ ⟨none, some "admin", none⟩ (some "h\nrow") 3).2
            = ⟨[], [], [], 0⟩)
    ∧ (exportGET ⟨[], [], [], 0⟩ ⟨none, some "admin", none⟩).status = 401
    ∧ ((listGETFixed ⟨[], [], [], 0⟩ ⟨none, some "admin", none⟩ ⟨1, 10, "", "", "", ""⟩).status = 200
        ∧ (listGETFixed ⟨[], [], [], 0⟩ ⟨none, some "admin", none⟩
            ⟨1, 10, "", "", "", ""⟩).buyers = []) :=
  ⟨by rfl,
   C4_missing_email_401 ⟨[], [], [], 0⟩
     ⟨"Jane Roe", none, "1234567890", "Mohali", "Plot", none, "Buy", none, none,
      "0-3m", "Website", none, []⟩ (some "h\nrow") 3 ⟨1, 10, "", "", "", ""⟩
     ⟨none, some "admin", none⟩ (by rfl)⟩

/-! ## Claim C5 -/

/-- The per-row loop characterised independently of its accumulator: every
data row is counted exactly once (no row aborts the batch), the error list
holds exactly the formatted message `Row <i+j+2>: ...` for each invalid row
`j` in file order, and the store grows by exactly one buyer per valid row
(earlier inserts are never undone). -/
theorem importRows_spec (P : Principal) (now : Nat) (rows : List String) (i : Nat)
    (st : Store) :
    ((importRows P now rows i st).1.success + (importRows P now rows i st).1.failed
        = rows.length)
    ∧ ((importRows P now rows i st).1.errors
        = (List.range rows.length).filterMap (fun j =>
            match createBuyerSchema (buyerDataOfColumns (parseCsvLine (rows.getD j ""))) with
            | .ok _ => none
            | .error issues =>
              some ("Row " ++ toString (i + j + 2) ++ ": " ++ formatZodIssues issues)))
    ∧ ((importRows P now rows i st).2.buyers.length
        = st.buyers.length + (importRows P now rows i st).1.success) := by
  induction rows generalizing i st with
  | nil => exact ⟨rfl, rfl, rfl⟩
  | cons line rest ih =>
    have key : ∀ (st' : Store),
        (List.range (line :: rest).length).filterMap (fun j =>
            match createBuyerSchema (buyerDataOfColumns
                (parseCsvLine ((line :: rest).getD j ""))) with
            | .ok _ => none
            | .error issues =>
              some ("Row " ++ toString (i + j + 2) ++ ": " ++ formatZodIssues issues))
          = (match createBuyerSchema (buyerDataOfColumns (parseCsvLine line)) with
             | .ok _ => ([] : List String)
             | .error issues =>
               ["Row " ++ toString (i + 2) ++ ": " ++ formatZodIssues issues])
            ++ (List.range rest.length).filterMap (fun j =>
                match createBuyerSchema (buyerDataOfColumns
                    (parseCsvLine (rest.getD j ""))) with
                | .ok _ => none
                | .error issues =>
                  some ("Row " ++ toString (i + 1 + j + 2) ++ ": "
                    ++ formatZodIssues issues)) := by
      intro _
      rw [List.length_cons, List.range_succ_eq_map, List.filterMap_cons, List.filterMap_map]
      have hcongr : ∀ j ∈ List.range rest.length,
          ((fun j =>
              match createBuyerSchema (buyerDataOfColumns
                  (parseCsvLine ((line :: rest).getD j ""))) with
              | .ok _ => none
              | .error issues =>
                some ("Row " ++ toString (i + j + 2) ++ ": " ++ formatZodIssues issues))
            ∘ Nat.succ) j
          = (fun j =>
              match createBuyerSchema (buyerDataOfColumns
                  (parseCsvLine (rest.getD j ""))) with
              | .ok _ => none
              | .error issues =>
                some ("Row " ++ toString (i + 1 + j + 2) ++ ": "
                  ++ formatZodIssues issues)) j := by
        intro j _
        have harith : i + (j + 1) + 2 = i + 1 + j + 2 := by omega
        simp only [Function.comp, List.getD_cons_succ, Nat.succ_eq_add_one, harith]
      rw [List.filterMap_congr hcongr]
      cases hv : createBuyerSchema (buyerDataOfColumns (parseCsvLine line)) with
      | error issues => simp [hv]
      | ok v => simp [hv]
    unfold importRows
    dsimp only
    cases hv : createBuyerSchema (buyerDataOfColumns (parseCsvLine line)) with
    | error issues =>
      simp only [hv]
      obtain ⟨ih1, ih2, ih3⟩ := ih (i + 1) st
      refine ⟨by simp only [List.length_cons]; omega, ?_, by omega⟩
      rw [ih2, key st, hv]
      rfl
    | ok v =>
      simp only [hv]
      obtain ⟨ih1, ih2, ih3⟩ :=
        ih (i + 1) ⟨st.users, st.buyers ++ [buyerFromValidated v (freshId st.nextId)
          (some P.id) now], st.history, st.nextId + 1⟩
      refine ⟨by simp only [List.length_cons]; omega, ?_, ?_⟩
      · rw [ih2, key st, hv]
        rfl
      · have hlen : (Store.mk st.users
            (st.buyers ++ [buyerFromValidated v (freshId st.nextId) (some P.id) now])
            st.history (st.nextId + 1)).buyers.length = st.buyers.length + 1 := by
          simp
        omega

/-- C5 (amended): rows are validated independently in order; each failing
row `j` (0-based among the blank-line-filtered data rows) contributes the
error string `Row <j+2>: <field>: <message>[, ...]` while processing
continues — success and failure counts always sum to the number of data
rows, and the store grows by one record per valid row. The row number is
`j + 2` against the FILTERED line list: it matches the 1-indexed original
file position only when the file has no blank lines (see the
counterexample). -/
theorem C5_row_errors (store : Store) (h : Headers) (csvText : String) (now : Nat)
    (P : Principal) (hP : getUserFromRequest store.users h = .ok P)
    (hlen : ¬ ((splitStr '\n' csvText).filter (fun l => jsTrim l ≠ "")).length < 2) :
    ((importPOST store h (some csvText) now).1.success
        + (importPOST store h (some csvText) now).1.failed
      = (((splitStr '\n' csvText).filter (fun l => jsTrim l ≠ "")).drop 1).length)
    ∧ ((importPOST store h (some csvText) now).1.errors
        = (List.range ((((splitStr '\n' csvText).filter
              (fun l => jsTrim l ≠ "")).drop 1).length)).filterMap
            (fun j =>
              match createBuyerSchema (buyerDataOfColumns (parseCsvLine
                  ((((splitStr '\n' csvText).filter
                      (fun l => jsTrim l ≠ "")).drop 1).getD j ""))) with
              | .ok _ => none
              | .error issues =>
                some ("Row " ++ toString (j + 2) ++ ": " ++ formatZodIssues issues)))
    ∧ ((importPOST store h (some csvText) now).2.buyers.length
        = store.buyers.length + (importPOST store h (some csvText) now).1.success) := by
  obtain ⟨h1, h2, h3⟩ := importRows_spec P now
    (((splitStr '\n' csvText).filter (fun l => jsTrim l ≠ "")).drop 1) 0 store
  simp only [Nat.zero_add] at h2
  unfold importPOST
  rw [hP]
  dsimp only
  rw [if_neg hlen]
  exact ⟨h1, h2, h3⟩

/-- Fixture for the C5 counterexample: a CSV whose second line is blank, so
the only data row sits at 1-indexed position 3 of the original file. -/
def c5csv : String := "h\n\nx,John Doe,,12,Chandigarh,Plot,,Buy,,,0-3m,Website"

/-- Counterexample to C5 as stated: the failing data row is the third line of
the original file (1-indexed position 3 — the file splits into header, blank
line, row), yet the emitted error names Row 2, because blank lines are
filtered out before rows are indexed. -/
theorem C5_counterexample :
    (importPOST ⟨[], [], [], 0⟩ ⟨some "p@x.com", some "user", some "user-P-0003"⟩
        (some c5csv) 5).1.errors = ["Row 2: phone: Phone must be 10-15 digits"]
    ∧ splitStr '\n' c5csv
        = ["h", "", "x,John Doe,,12,Chandigarh,Plot,,Buy,,,0-3m,Website"]
    ∧ ("Row 2: phone: Phone must be 10-15 digits"
        ≠ "Row 3: phone: Phone must be 10-15 digits") :=
  ⟨by rfl, by rfl, by decide⟩

/-- Fixture for the C5 witness: one invalid row (phone `12`) followed by one
valid row. -/
def c5wcsv : String :=
  "h\nx,John Doe,,12,Chandigarh,Plot,,Buy,,,0-3m,Website\nx,Jane Roe,,1234567890,Mohali,Plot,,Buy,,,0-3m,Website"

/-- Fixture headers for the C5 witness. -/
def c5wHeaders : Headers := ⟨some "p@x.com", some "user", some "user-P-0003"⟩

/-- Witness for C5 (amended) at a concrete two-row file. -/
theorem C5_row_errors_witness :
    getUserFromRequest (Store.mk [] [] [] 0).users c5wHeaders
      = .ok ⟨"user-P-0003", "p@x.com", "user"⟩
    ∧ ¬ ((splitStr '\n' c5wcsv).filter (fun l => jsTrim l ≠ "")).length < 2
    ∧ ((importPOST ⟨[], [], [], 0⟩ c5wHeaders (some c5wcsv) 5).1.success
        + (importPOST ⟨[], [], [], 0⟩ c5wHeaders (some c5wcsv) 5).1.failed
       = (((splitStr '\n' c5wcsv).filter (fun l => jsTrim l ≠ "")).drop 1).length) :=
  ⟨by rfl, by decide,
   (C5_row_errors ⟨[], [], [], 0⟩ c5wHeaders c5wcsv 5
      ⟨"user-P-0003", "p@x.com", "user"⟩ (by rfl) (by decide)).1⟩

/-! ## Claim C8 -/

/-- Splitting a separator-free character list yields one group. -/
theorem chSplit_of_not_mem (sep : Char) (l : List Char) (h : sep ∉ l) :
    chSplit sep l = [l] := by
  induction l with
  | nil => rfl
  | cons c t ih =>
    have hc : ¬ c = sep := fun he => h (he ▸ List.mem_cons_self c t)
    have ht : sep ∉ t := fun hm => h (List.mem_cons_of_mem c hm)
    simp only [chSplit, ih ht, if_neg hc]

/-- Splitting peels off a separator-free prefix as its own group. -/
theorem chSplit_append (sep : Char) (a l : List Char) (h : sep ∉ a) :
    chSplit sep (a ++ sep :: l) = a :: chSplit sep l := by
  induction a with
  | nil => simp [chSplit]
  | cons c t ih =>
    have hc : ¬ c = sep := fun he => h (he ▸ List.mem_cons_self c t)
    have ht : sep ∉ t := fun hm => h (List.mem_cons_of_mem c hm)
    simp only [List.cons_append, chSplit, if_neg hc, List.append_eq]
    rw [ih ht]

/-- The split is a left inverse of the join on comma-free fields — the exact
relation between the CSV cells the export route joins and the columns
recovered by the importer. -/
theorem splitStr_joinSep (fields : List String) (hne : fields ≠ [])
    (h : ∀ f ∈ fields, ',' ∉ f.data) :
    splitStr ',' (joinSep "," fields) = fields := by
  induction fields with
  | nil => exact absurd rfl hne
  | cons x t ih =>
    cases t with
    | nil =>
      unfold splitStr joinSep
      rw [chSplit_of_not_mem _ _ (h x (List.mem_cons_self x []))]
      rcases x with ⟨d⟩
      rfl
    | cons y s =>
      have hxd : (joinSep "," (x :: y :: s)).data
          = x.data ++ ',' :: (joinSep "," (y :: s)).data := by
        show (x ++ "," ++ joinSep "," (y :: s)).data = _
        simp
      unfold splitStr
      rw [hxd, chSplit_append _ _ _ (h x (List.mem_cons_self x _))]
      have hrest := ih (List.cons_ne_nil y s)
        (fun f hf => h f (List.mem_cons_of_mem x hf))
      unfold splitStr at hrest
      simp only [List.map_cons, hrest]

/-- Trimming a quote-wrapped cell changes nothing: its edges are quote
characters, not whitespace. -/
theorem trimChars_quote_wrapped (m : List Char) :
    trimChars ('"' :: (m ++ ['"'])) = '"' :: (m ++ ['"']) := by
  have hq : ('"' : Char).isWhitespace = false := by decide
  have h1 : ('"' :: (m ++ ['"'])).reverse = '"' :: (m.reverse ++ ['"']) := by
    simp
  unfold trimChars
  rw [List.dropWhile_cons, hq]
  simp only [Bool.false_eq_true, if_false]
  rw [h1, List.dropWhile_cons, hq]
  simp only [Bool.false_eq_true, if_false]
  simp

/-- `jsTrim` is the identity on a quote-wrapped cell. -/
theorem jsTrim_quote_wrapped (s : String) :
    jsTrim ("\"" ++ s ++ "\"") = "\"" ++ s ++ "\"" := by
  have hd : ("\"" ++ s ++ "\"").data = '"' :: (s.data ++ ['"']) := by
    show ("\"".data ++ s.data) ++ "\"".data = _
    simp
  unfold jsTrim
  rw [hd, trimChars_quote_wrapped]
  exact congrArg String.mk hd.symm

/-- Stripping the outer quotes of a quote-wrapped cell recovers the cell
content. -/
theorem stripOuterQuotes_quote_wrapped (s : String) :
    stripOuterQuotes ("\"" ++ s ++ "\"") = s := by
  have hd : ("\"" ++ s ++ "\"").data = '"' :: (s.data ++ ['"']) := by
    show ("\"".data ++ s.data) ++ "\"".data = _
    simp
  unfold stripOuterQuotes
  rw [hd]
  simp only [List.getLast?_concat, List.dropLast_concat]

/-- Every status enumeration value is trim-stable, quote-free and
non-empty. -/
theorem statusOptions_clean :
    ∀ s ∈ statusOptions, jsTrim s = s ∧ stripOuterQuotes s = s ∧ s ≠ "" := by
  decide

/-- The round-trip operation of the claim: blank the ID column of one data
line. -/
def blankIdLine (line : String) : String :=
  joinSep "," ("" :: (splitStr ',' line).drop 1)

/-- The round-trip operation of the claim: blank the ID column of every data
line of an exported CSV. -/
def blankIds (csv : String) : String :=
  match splitStr '\n' csv with
  | [] => ""
  | h :: t => joinSep "\n" (h :: t.map blankIdLine)

/-- C8 (amended): re-importing an exported data row (ID blanked) does not
reproduce the record: export writes `Status`, `Notes`, `Tags` at columns 12,
13, 14, while import reads `notes` from column 12 and `tags` from column 13
— so the re-imported notes field receives the exported STATUS value (the
fullName column, in contrast, does round-trip), and every inserted row gets
status `New` and the importer as owner. The record count is preserved when
the rows validate (see the counterexample for a concrete full round trip). -/
theorem C8_export_import_misaligned_columns (b : Buyer)
    (hno : ∀ cell ∈ exportFields b, ',' ∉ cell.data)
    (hstat : b.status ∈ statusOptions) :
    (buyerDataOfColumns (parseCsvLine (blankIdLine (joinSep "," (exportFields b))))).notes
        = some b.status
    ∧ (buyerDataOfColumns (parseCsvLine (blankIdLine (joinSep "," (exportFields b))))).fullName
        = b.fullName
    ∧ (∀ (v : ValidatedCreate) (id : String) (o : Option String) (now : Nat),
        (buyerFromValidated v id o now).status = "New"
        ∧ (buyerFromValidated v id o now).ownerId = o) := by
  have hne : exportFields b ≠ [] := by
    unfold exportFields
    exact List.cons_ne_nil _ _
  have hsplit1 : splitStr ',' (joinSep "," (exportFields b)) = exportFields b :=
    splitStr_joinSep _ hne hno
  have hno2 : ∀ f ∈ "" :: (exportFields b).drop 1, ',' ∉ f.data := by
    intro f hf
    rcases List.mem_cons.mp hf with rfl | hf'
    · simp
    · exact hno f (List.drop_subset 1 _ hf')
  have hsplit2 : splitStr ',' (blankIdLine (joinSep "," (exportFields b)))
      = "" :: (exportFields b).drop 1 := by
    unfold blankIdLine
    rw [hsplit1]
    exact splitStr_joinSep _ (List.cons_ne_nil _ _) hno2
  have hcols : parseCsvLine (blankIdLine (joinSep "," (exportFields b)))
      = ("" :: (exportFields b).drop 1).map (fun col => stripOuterQuotes (jsTrim col)) := by
    unfold parseCsvLine
    rw [hsplit2]
  obtain ⟨ht, hq, hne'⟩ := statusOptions_clean b.status hstat
  refine ⟨?_, ?_, fun v id o now => ⟨rfl, rfl⟩⟩
  · rw [hcols]
    simp only [exportFields, List.drop_succ_cons, List.drop_zero, List.map_cons,
      buyerDataOfColumns, optCol, colGet, List.getD_cons_succ, List.getD_cons_zero]
    rw [ht, hq, if_neg hne']
  · rw [hcols]
    simp only [exportFields, List.drop_succ_cons, List.drop_zero, List.map_cons,
      buyerDataOfColumns, colGet, List.getD_cons_succ, List.getD_cons_zero]
    rw [jsTrim_quote_wrapped, stripOuterQuotes_quote_wrapped]

/-- Fixture for C8: a record with notes and no tags, owned by
`user-B-0002`. -/
def c8buyer : Buyer :=
  ⟨"b1", "Jane Roe", none, "1234567890", "Mohali", "Plot", none, "Buy", none, none,
   "0-3m", "Website", "New", some "hot lead", [], some "user-B-0002", 1, 1⟩

/-- The C8 round trip: export the one-record store as its owner, blank the ID
column, and import the result into an empty store as `user-P-0003`. -/
def c8import : ImportResult × Store :=
  importPOST ⟨[], [], [], 0⟩ ⟨some "p@x.com", some "user", some "user-P-0003"⟩
    (some (blankIds ((exportGET ⟨[], [c8buyer], [], 0⟩
      ⟨some "b@x.com", some "user", some "user-B-0002"⟩).csv.getD ""))) 5

/-- Counterexample to C8: the full round trip preserves the record count, but
the re-imported record does not match the exported one on the scalar fields:
its notes are the exported status string `New` (not `hot lead`) and its tags
are the exported notes (`hot lead`), because the import column mapping skips
the exported Status column. -/
theorem C8_counterexample :
    ((c8import).2.buyers.length = (Store.mk [] [c8buyer] [] 0).buyers.length)
    ∧ (c8import).2.buyers
        = [⟨"buyer-0", "Jane Roe", none, "1234567890", "Mohali", "Plot", none,
            "Buy", none, none, "0-3m", "Website", "New", some "New", ["hot lead"],
            some "user-P-0003", 5, 5⟩]
    ∧ c8buyer.notes = some "hot lead"
    ∧ c8buyer.tags = ([] : List String)
    ∧ some "New" ≠ some "hot lead" :=
  ⟨by rfl, by rfl, by rfl, by rfl, by decide⟩

/-- Witness for C8 (amended) at the concrete record `c8buyer`. -/
theorem C8_export_import_misaligned_columns_witness :
    (∀ cell ∈ exportFields c8buyer, ',' ∉ cell.data)
    ∧ c8buyer.status ∈ statusOptions
    ∧ (buyerDataOfColumns (parseCsvLine (blankIdLine
        (joinSep "," (exportFields c8buyer))))).notes = some c8buyer.status :=
  ⟨by decide, by decide,
   (C8_export_import_misaligned_columns c8buyer (by decide) (by decide)).1⟩

end BuyerIntake
